import Mathlib

/-!
Shallow embedding of the alarm_player repository (Rust) for checking its
natural-language specification.

Modelling conventions:
- OffsetDateTime and PrimitiveDateTime values are modelled as integers
  (a total order is all the code uses of them).
- Rust HashMap values are modelled as association lists with first-match
  lookup; insert replaces the first matching binding, remove deletes it.
- Channels, sleeping and HTTP are modelled by returning explicit actions
  or phase descriptions instead of performing effects.
-/

namespace AlarmPlayer

abbrev Timestamp := Int

/-- Association-list lookup, first binding wins (models HashMap.get). -/
def assocFind {α : Type} (k : String) : List (String × α) → Option α
  | [] => none
  | (k', v) :: rest => if k' = k then some v else assocFind k rest

/-- Association-list insert, replacing the first matching binding
(models HashMap.insert). -/
def assocInsert {α : Type} (k : String) (v : α) : List (String × α) → List (String × α)
  | [] => [(k, v)]
  | (k', v') :: rest =>
      if k' = k then (k, v) :: rest else (k', v') :: assocInsert k v rest

/-- Association-list removal of the first matching binding
(models HashMap.remove). -/
def assocRemove {α : Type} (k : String) : List (String × α) → List (String × α)
  | [] => []
  | (k', v') :: rest => if k' = k then rest else (k', v') :: assocRemove k rest

/-- Alarm event value, from src/model/alarm.rs. -/
structure Alarm where
  house_code : String := ""
  tenant_id : Option String := none
  farm_id : Option String := none
  target_name : String := ""
  alarm_item : String := ""
  content : String := ""
  timestamp : Timestamp := 0
  received_time : Option Timestamp := none
  alarm_type : String := ""
  is_test : Bool := false
  is_alarm : Bool := true
  is_confirmed : Bool := false
  day_age : Option Nat := none
  test_plan_time : Option Timestamp := none
  test_time : Option Timestamp := none
  is_new : Bool := false
deriving DecidableEq

/-- House config value, from src/service.rs. -/
structure House where
  name : String
  code : String
  enabled : Bool
  is_empty_mode : Bool
deriving DecidableEq

/-- Soundbox config, from src/service.rs. -/
structure BoxConfig where
  enabled : Bool
  volume : Nat
deriving DecidableEq

/-- Soundpost config, from src/service.rs. -/
structure PostConfig where
  device_ids : List Nat
  speed : Nat
deriving DecidableEq

/-- Localization table, from src/service.rs. -/
structure Localization where
  culture : String
  texts : List (String × String)
deriving DecidableEq

inductive AlarmStatus where
  | Playable
  | Canceled
  | Paused
deriving DecidableEq

/-- The state service aggregate, from src/service.rs (the fields the
pipeline logic reads and writes; database and broker handles are external
collaborators and are not part of the state). -/
structure AlarmService where
  crontab : Option String := none
  play_delay_secs : Nat := 0
  is_alarm_paused : Bool := false
  alarm_set : List (String × Alarm) := []
  unmapped_cancel_set : List (String × Alarm) := []
  house_set : List (String × House) := []
  language : Option String := none
  default_language : String := ""
  test_play_duration : Nat := 0
  localization_set : List (String × Localization) := []
  soundbox : BoxConfig := ⟨true, 100⟩
  soundposts : PostConfig := ⟨[], 50⟩
  play_interval_secs : Nat := 0
deriving DecidableEq

/-- Identity key of an alarm, from AlarmService::get_alarm_set_key. -/
def AlarmService.get_alarm_set_key (alarm : Alarm) : String :=
  alarm.house_code ++ "_" ++ alarm.target_name

/-- AlarmService::set_alarm, src/service.rs lines 353 to 382, translated
branch by branch. Returns the updated service and the returned bool. -/
def AlarmService.set_alarm (s : AlarmService) (alarm : Alarm) : AlarmService × Bool :=
  let key := AlarmService.get_alarm_set_key alarm
  match assocFind key s.alarm_set with
  | some last_alarm =>
      if alarm.timestamp < last_alarm.timestamp then
        (s, false)
      else if !alarm.is_alarm && decide (last_alarm.timestamp < alarm.timestamp) then
        ({ s with alarm_set := assocRemove key s.alarm_set }, false)
      else
        (s, false || alarm.is_new)
  | none =>
      if alarm.is_alarm then
        ({ s with alarm_set := assocInsert key alarm s.alarm_set }, true)
      else
        ({ s with unmapped_cancel_set := assocInsert key alarm s.unmapped_cancel_set }, false)

/-- The tail of AlarmService::get_alarm_status after the two Canceled
early returns (empty-house pause check, then Paused or Playable). -/
def AlarmService.pausedCheck (s : AlarmService) (alarm : Alarm) : AlarmStatus :=
  let paused :=
    match assocFind alarm.house_code s.house_set with
    | some house => house.is_empty_mode && !house.enabled
    | none => false
  if s.is_alarm_paused || alarm.is_confirmed || paused then
    AlarmStatus.Paused
  else
    AlarmStatus.Playable

/-- AlarmService::get_alarm_status, src/service.rs lines 416 to 444. -/
def AlarmService.get_alarm_status (s : AlarmService) (alarm : Alarm) : AlarmStatus :=
  let stored := assocFind (AlarmService.get_alarm_set_key alarm) s.alarm_set
  if stored.isNone && !alarm.is_test then
    AlarmStatus.Canceled
  else
    match stored with
    | some catched_alarm =>
        if decide (alarm.timestamp < catched_alarm.timestamp) then
          AlarmStatus.Canceled
        else
          s.pausedCheck alarm
    | none => s.pausedCheck alarm

/-- AlarmService::get_play_delay: Duration::seconds(play_delay_secs). -/
def AlarmService.get_play_delay (s : AlarmService) : Int :=
  (s.play_delay_secs : Int)

def AlarmService.set_play_delay (s : AlarmService) (play_delay_secs : Nat) : AlarmService :=
  { s with play_delay_secs := play_delay_secs }

def AlarmService.set_play_interval_secs (s : AlarmService) (play_interval_secs : Nat) :
    AlarmService :=
  { s with play_interval_secs := play_interval_secs }

/-- AlarmService::get_play_interval_secs, src/service.rs lines 591 to 593:
the body reads the play_delay_secs field. -/
def AlarmService.get_play_interval_secs (s : AlarmService) : Nat :=
  s.play_delay_secs

/-- Rust str::split with a one-character pattern, over the character
list of the string: splitting the empty string yields one empty piece,
adjacent separators yield empty pieces. -/
def splitChar (sep : Char) : List Char → List (List Char)
  | [] => [[]]
  | c :: rest =>
      let r := splitChar sep rest
      if c = sep then [] :: r
      else
        match r with
        | [] => [[c]]
        | g :: gs => (c :: g) :: gs

/-- Rust str::split with a one-character pattern, on strings. -/
def splitField (s : String) (sep : Char) : List String :=
  (splitChar sep s.data).map List.asString

/-- The final space-separated piece of the content string:
content.split with a single-space pattern, then Iterator::last. -/
def statusToken (content : String) : Option String :=
  (splitField content ' ').getLast?

/-- AlarmService::get_alarm_content, src/service.rs lines 507 to 569. -/
def AlarmService.get_alarm_content (s : AlarmService) (alarm : Alarm) :
    Except String String :=
  match assocFind alarm.house_code s.house_set with
  | none => Except.error ("House not exist with code: " ++ alarm.house_code)
  | some house =>
    match statusToken alarm.content with
    | none => Except.error ("Valid alarm content is empty, origin: " ++ alarm.content)
    | some status =>
      let pair : String × String :=
        match s.language with
        | some ln =>
          if ln = s.default_language then
            (alarm.alarm_item, status)
          else
            match assocFind ln s.localization_set with
            | some localization =>
              let alarm_item :=
                match assocFind alarm.alarm_item localization.texts with
                | some txt => txt
                | none => alarm.alarm_item
              if status = "" then
                (alarm_item, status)
              else
                let status2 :=
                  match assocFind status localization.texts with
                  | some txt => txt
                  | none => status
                (alarm_item, status2)
            | none => (alarm.alarm_item, status)
        | none => (alarm.alarm_item, status)
      Except.ok ("[" ++ house.name ++ "] " ++ pair.1 ++ " " ++ pair.2)

/-- PlayCancelType, from src/player. -/
inductive PlayCancelType where
  | AlarmArrived
  | Terminated
deriving DecidableEq

/-- PlayResultType, from src/player. -/
inductive PlayResultType where
  | Normal
  | Timeout
  | Canceled (c : PlayCancelType)
deriving DecidableEq

/-- PlayResult, from src/service.rs. -/
structure PlayResult where
  id : String
  has_error : Bool
  err_message : Option String := none
  play_type : Option String := none
  result_type : PlayResultType
deriving DecidableEq

/-- Row written by AlarmService::test_play_record into
test_alarm_play_record (the fields the service computes). -/
structure TestAlarmPlayRecordRow where
  plan_time : Timestamp
  test_time : Timestamp
  test_type : Nat
  media_file : Option String
  test_result : Int
  has_error : Bool
  err_message : Option String
  creation_time : Timestamp
deriving DecidableEq

/-- Body published on the crontab result topic by test_play_record. -/
structure MqttPlayRespData where
  result : Int
  plan_time : Timestamp
  test_time : Timestamp
deriving DecidableEq

/-- AlarmService::test_play_record, src/service.rs lines 646 to 712: the
persisted row and the published result body, as functions of the alarm,
the aggregated play result and the current wall-clock time. -/
def AlarmService.test_play_record (alarm : Alarm) (result : PlayResult)
    (now : Timestamp) : TestAlarmPlayRecordRow × MqttPlayRespData :=
  let plan_time := alarm.test_plan_time.getD now
  let test_time := alarm.test_time.getD now
  let test_result : Int :=
    match result.result_type with
    | PlayResultType.Normal => 3
    | PlayResultType.Timeout => 3
    | PlayResultType.Canceled PlayCancelType.AlarmArrived => 4
    | PlayResultType.Canceled PlayCancelType.Terminated => 5
  (⟨plan_time, test_time, 1, some result.id, test_result, result.has_error,
    result.err_message, now⟩,
   ⟨test_result, plan_time, test_time⟩)

/-- Cycle::push, src/task/cycle.rs lines 100 to 103: an unconditional
push_back onto the queue. -/
def Cycle.push (alarms : List Alarm) (alarm : Alarm) : List Alarm :=
  alarms ++ [alarm]

/-- What the real-time gate does with one received alarm: store it as the
pending test alarm, drop it, emit after sleeping until a wake instant, or
emit at once. -/
inductive GateAction where
  | StoredTest
  | Dropped
  | SleepThenEmit (wake : Timestamp)
  | EmitNow
deriving DecidableEq

/-- RealTime::process, src/task/real_time.rs lines 118 to 158, as a
function of the service state, the alarm and the current time. -/
def RealTime.process (s : AlarmService) (alarm : Alarm) (now : Timestamp) :
    AlarmService × GateAction :=
  if alarm.is_test then
    (s, GateAction.StoredTest)
  else
    let alarm_time := alarm.received_time.getD alarm.timestamp
    let r := s.set_alarm alarm
    if !r.2 then
      (r.1, GateAction.Dropped)
    else
      let play_time := alarm_time + r.1.get_play_delay
      if now < play_time then
        (r.1, GateAction.SleepThenEmit play_time)
      else
        (r.1, GateAction.EmitNow)

/-- Play mode, from src/config.rs. -/
inductive PlayMode where
  | Music
  | Tts
deriving DecidableEq

/-- Which playback path one Play::run iteration takes. -/
inductive PlayPath where
  | TestPath
  | AlarmPath
  | NoPlay
deriving DecidableEq

/-- Which persistence call one Play::run iteration makes. -/
inductive PersistKind where
  | PlayRecordRow
  | TestPlayRecordRow
  | NoRecord
deriving DecidableEq

/-- Observable outcome of one Play::run loop iteration. -/
structure PlayStepOutcome where
  played : PlayPath
  persisted : PersistKind
  forwarded_to_cycle : Bool
deriving DecidableEq

/-- One iteration of Play::run, src/task/play.rs lines 144 to 257: the
test branch plays via play_test and then calls service.play_record and
continues; the act branches dispatch on the alarm status, with the Tts
content-error skip included. -/
def Play.runStep (mode : PlayMode) (s : AlarmService) (alarm : Alarm) :
    PlayStepOutcome :=
  if alarm.is_test then
    ⟨PlayPath.TestPath, PersistKind.PlayRecordRow, false⟩
  else
    match s.get_alarm_status alarm with
    | AlarmStatus.Canceled => ⟨PlayPath.NoPlay, PersistKind.NoRecord, false⟩
    | AlarmStatus.Paused => ⟨PlayPath.NoPlay, PersistKind.NoRecord, true⟩
    | AlarmStatus.Playable =>
      match mode with
      | PlayMode.Music => ⟨PlayPath.AlarmPath, PersistKind.PlayRecordRow, true⟩
      | PlayMode.Tts =>
        match s.get_alarm_content alarm with
        | Except.error _ => ⟨PlayPath.NoPlay, PersistKind.NoRecord, false⟩
        | Except.ok _ => ⟨PlayPath.AlarmPath, PersistKind.PlayRecordRow, true⟩

/-- JSON payload fields of an act-alarm message. Fields that serde is told
to skip on Alarm (HouseCode, ReceivedTime, IsConfirmed, IsNew) are kept
here as optional values so that payloads carrying them can be compared. -/
structure AlarmPayload where
  house_code : Option String := none
  tenant_id : Option String := none
  farm_id : Option String := none
  target_name : String := ""
  alarm_item : String := ""
  content : String := ""
  timestamp : Timestamp := 0
  received_time : Option Timestamp := none
  alarm_type : String := ""
  is_test : Bool := false
  is_alarm : Bool := true
  is_confirmed : Option Bool := none
  day_age : Option Nat := none
  test_plan_time : Option Timestamp := none
  test_time : Option Timestamp := none
  is_new : Option Bool := none
deriving DecidableEq

/-- serde deserialization of Alarm, src/model/alarm.rs lines 5 to 38: the
skipped fields take their defaults, everything else is read from the
payload. -/
def deserializeAlarm (p : AlarmPayload) : Alarm :=
  { house_code := ""
    tenant_id := p.tenant_id
    farm_id := p.farm_id
    target_name := p.target_name
    alarm_item := p.alarm_item
    content := p.content
    timestamp := p.timestamp
    received_time := none
    alarm_type := p.alarm_type
    is_test := p.is_test
    is_alarm := p.is_alarm
    is_confirmed := false
    day_age := p.day_age
    test_plan_time := p.test_plan_time
    test_time := p.test_time
    is_new := false }

/-- ActAlarmHandler::proc, src/handler/act_alarm.rs lines 47 to 68, on a
matching topic: deserialize, stamp received_time with the current time,
overwrite house_code with the first slash-separated topic segment, and
return the alarm that is sent to the act channel. -/
def ActAlarmHandler.proc (topic : String) (p : AlarmPayload) (now : Timestamp) :
    Alarm :=
  let alarm := deserializeAlarm p
  let alarm := { alarm with received_time := some now }
  match (splitField topic '/').head? with
  | some house_code => { alarm with house_code := house_code }
  | none => alarm

/-- SpeechLoop, from src/player/soundpost.rs. -/
structure SpeechLoop where
  duration : Nat
  times : Nat
  gap : Nat
deriving DecidableEq

/-- The wait phase of Soundpost::play after an accepted speech request,
src/player/soundpost.rs lines 343 to 361: an unconditional sleep of
speech_loop.duration seconds, then wait_for_play_finished (the play_status
polling loop of lines 366 to 370) raced against a tokio timeout whose
bound is the literal Duration::from_secs(1), with a cancel issued to the
controller when that timeout fires. -/
structure SoundpostWaitPhase where
  initial_sleep_secs : Nat
  poll_timeout_secs : Nat
  cancel_on_timeout : Bool
deriving DecidableEq

/-- Soundpost::play wait phase as written in the source. -/
def Soundpost.waitPhase (speech_loop : SpeechLoop) : SoundpostWaitPhase :=
  ⟨speech_loop.duration, 1, true⟩

/-! Helper lemmas on association lists. -/

theorem assocFind_eq_none_of_not_mem {α : Type} (k : String)
    (l : List (String × α)) (h : k ∉ l.map Prod.fst) : assocFind k l = none := by
  induction l with
  | nil => rfl
  | cons p rest ih =>
      simp only [List.map_cons, List.mem_cons] at h
      push_neg at h
      simp only [assocFind]
      rw [if_neg (by exact fun hc => h.1 hc.symm), ih h.2]

theorem assocFind_assocRemove_self {α : Type} (k : String)
    (l : List (String × α)) (h : (l.map Prod.fst).Nodup) :
    assocFind k (assocRemove k l) = none := by
  induction l with
  | nil => rfl
  | cons p rest ih =>
      simp only [List.map_cons, List.nodup_cons] at h
      by_cases hk : p.1 = k
      · simp only [assocRemove, if_pos hk]
        exact assocFind_eq_none_of_not_mem k rest (hk ▸ h.1)
      · simp only [assocRemove, if_neg hk, assocFind, if_neg hk]
        exact ih h.2

theorem assocFind_assocInsert_self {α : Type} (k : String) (v : α)
    (l : List (String × α)) : assocFind k (assocInsert k v l) = some v := by
  induction l with
  | nil => simp [assocInsert, assocFind]
  | cons p rest ih =>
      by_cases hk : p.1 = k
      · simp [assocInsert, hk, assocFind]
      · simp only [assocInsert, if_neg hk, assocFind, if_neg hk]
        exact ih

/-- The pause-or-playable tail of get_alarm_status, characterized. -/
theorem pausedCheck_cases (s : AlarmService) (a : Alarm) :
    (s.pausedCheck a = AlarmStatus.Paused ↔
      (s.is_alarm_paused = true ∨ a.is_confirmed = true ∨
        ∃ h, assocFind a.house_code s.house_set = some h ∧
          h.is_empty_mode = true ∧ h.enabled = false)) ∧
    (s.pausedCheck a = AlarmStatus.Playable ↔
      ¬(s.is_alarm_paused = true ∨ a.is_confirmed = true ∨
        ∃ h, assocFind a.house_code s.house_set = some h ∧
          h.is_empty_mode = true ∧ h.enabled = false)) ∧
    s.pausedCheck a ≠ AlarmStatus.Canceled := by
  unfold AlarmService.pausedCheck
  cases hh : assocFind a.house_code s.house_set with
  | none =>
      cases hp : s.is_alarm_paused <;> cases hc : a.is_confirmed <;> simp [hh, hp, hc]
  | some house =>
      cases hp : s.is_alarm_paused <;> cases hc : a.is_confirmed <;>
        cases he : house.is_empty_mode <;> cases hen : house.enabled <;>
          simp [hh, hp, hc, he, hen]

/-- set_alarm never changes the configured play delay. -/
theorem set_alarm_preserves_play_delay (s : AlarmService) (a : Alarm) :
    (s.set_alarm a).1.play_delay_secs = s.play_delay_secs := by
  cases hfind : assocFind (AlarmService.get_alarm_set_key a) s.alarm_set with
  | none =>
      simp only [AlarmService.set_alarm, hfind]
      split <;> rfl
  | some last =>
      simp only [AlarmService.set_alarm, hfind]
      split
      · rfl
      · split <;> rfl

/-! Claim theorems. -/

/-- C3 counterexample: pushing a second alarm with the identity key
already present in the cycle queue appends it anyway, so the queue holds
two alarms with the same identity key at one instant, contrary to the
claimed dedup-on-input and the claimed at-most-one-per-key invariant. -/
theorem c3_cycle_push_duplicate_key_counterexample :
    Cycle.push
        (Cycle.push [] { house_code := "H1", target_name := "T", timestamp := 1 })
        { house_code := "H1", target_name := "T", timestamp := 2 }
      = [{ house_code := "H1", target_name := "T", timestamp := 1 },
         { house_code := "H1", target_name := "T", timestamp := 2 }] ∧
    AlarmService.get_alarm_set_key
        ({ house_code := "H1", target_name := "T", timestamp := 1 } : Alarm)
      = AlarmService.get_alarm_set_key
        ({ house_code := "H1", target_name := "T", timestamp := 2 } : Alarm) ∧
    ¬ ((Cycle.push
        (Cycle.push [] { house_code := "H1", target_name := "T", timestamp := 1 })
        { house_code := "H1", target_name := "T", timestamp := 2 }).map
          AlarmService.get_alarm_set_key).Nodup := by
  refine ⟨rfl, rfl, by decide⟩

/-- C3 amended: the cycle repeater appends every alarm received on the
cycle input channel to the queue unconditionally, with no identity-key
dedup check; the number of queued alarms holding the identity key of the
new alarm always grows by exactly one, so the queue can hold several
alarms with the same identity key. -/
theorem c3_cycle_push_appends_unconditionally (q : List Alarm) (a : Alarm) :
    Cycle.push q a = q ++ [a] ∧
    (Cycle.push q a).countP
        (fun b => decide (AlarmService.get_alarm_set_key b =
          AlarmService.get_alarm_set_key a)) =
      q.countP
        (fun b => decide (AlarmService.get_alarm_set_key b =
          AlarmService.get_alarm_set_key a)) + 1 := by
  refine ⟨rfl, ?_⟩
  simp [Cycle.push, List.countP_append, List.countP_cons]

/-- C4: evaluated at a test alarm (at an arbitrary play mode and service
snapshot shape used in the pipeline), one Play::run iteration takes the
test playback path and does not forward to the cycle channel, but the
record it persists is the ordinary alarm play_record call, not the
test-play variant: src/task/play.rs line 195 calls service.play_record,
and AlarmService::test_play_record has no caller anywhere in the crate. -/
theorem c4_test_path_persists_wrong_record_kind :
    Play.runStep PlayMode.Music ({} : AlarmService)
        ({ house_code := "test", target_name := "test", is_test := true } : Alarm)
      = ⟨PlayPath.TestPath, PersistKind.PlayRecordRow, false⟩ ∧
    Play.runStep PlayMode.Tts ({} : AlarmService)
        ({ house_code := "test", target_name := "test", is_test := true } : Alarm)
      = ⟨PlayPath.TestPath, PersistKind.PlayRecordRow, false⟩ ∧
    PersistKind.PlayRecordRow ≠ PersistKind.TestPlayRecordRow := by
  refine ⟨rfl, rfl, by decide⟩

/-- C6: for every test-play record written by test_play_record, the
persisted test_result code is exactly 3 for Normal and Timeout results,
4 for Canceled(AlarmArrived) and 5 for Canceled(Terminated), and the
published result body carries the same code. -/
theorem c6_test_result_code_mapping (alarm : Alarm) (result : PlayResult)
    (now : Timestamp) :
    ((AlarmService.test_play_record alarm result now).1.test_result = 3 ↔
      (result.result_type = PlayResultType.Normal ∨
       result.result_type = PlayResultType.Timeout)) ∧
    ((AlarmService.test_play_record alarm result now).1.test_result = 4 ↔
      result.result_type = PlayResultType.Canceled PlayCancelType.AlarmArrived) ∧
    ((AlarmService.test_play_record alarm result now).1.test_result = 5 ↔
      result.result_type = PlayResultType.Canceled PlayCancelType.Terminated) ∧
    (AlarmService.test_play_record alarm result now).2.result =
      (AlarmService.test_play_record alarm result now).1.test_result := by
  rcases result with ⟨id, he, em, pt, rt⟩
  rcases rt with _ | _ | c
  · simp [AlarmService.test_play_record]
  · simp [AlarmService.test_play_record]
  · rcases c with _ | _ <;> simp [AlarmService.test_play_record]

/-- C8: evaluation at the failing input. Starting from the default
service with play delay 3 seconds, setting the play interval to 7 leaves
get_play_interval_secs at 3 (the getter body reads play_delay_secs), and
a later set_play_delay 9 changes get_play_interval_secs to 9; the claim
says the getter reads the play interval and ignores the play delay. -/
theorem c8_get_play_interval_reads_play_delay_field :
    ((({} : AlarmService).set_play_delay 3).set_play_interval_secs
        7).get_play_interval_secs = 3 ∧
    ((({} : AlarmService).set_play_delay 3).set_play_interval_secs
        7).play_interval_secs = 7 ∧
    (((({} : AlarmService).set_play_delay 3).set_play_interval_secs
        7).set_play_delay 9).get_play_interval_secs = 9 := by
  refine ⟨rfl, rfl, rfl⟩

/-- C9: evaluation at the failing input. For the speech request issued
with loop duration 60 (the values the player uses for a test play), the
wait phase of Soundpost::play sleeps the full 60 seconds without polling,
and then bounds the play_status polling loop by the hardcoded one-second
tokio timeout, not by the loop duration; the cancel on timeout is issued
after that one second. The warning the code logs on that timeout claims
the bound was the loop duration. -/
theorem c9_poll_timeout_is_hardcoded_one_second :
    Soundpost.waitPhase ⟨60, 1000, 2⟩ = ⟨60, 1, true⟩ ∧
    (Soundpost.waitPhase ⟨60, 1000, 2⟩).poll_timeout_secs ≠
      (⟨60, 1000, 2⟩ : SpeechLoop).duration := by
  refine ⟨rfl, by decide⟩

/-- C2: get_alarm_status returns Canceled iff no entry exists for the
identity key of the alarm and the alarm is not a test, or a stored entry
under that key has strictly greater timestamp; otherwise it returns
Paused iff global pause is set, or the alarm is confirmed, or the house
of the alarm exists with is_empty_mode and not enabled; otherwise it
returns Playable. -/
theorem c2_get_alarm_status_characterization (s : AlarmService) (a : Alarm) :
    (s.get_alarm_status a = AlarmStatus.Canceled ↔
      ((assocFind (AlarmService.get_alarm_set_key a) s.alarm_set = none ∧
          a.is_test = false) ∨
        (∃ st, assocFind (AlarmService.get_alarm_set_key a) s.alarm_set = some st ∧
          a.timestamp < st.timestamp))) ∧
    (s.get_alarm_status a = AlarmStatus.Paused ↔
      (¬(((assocFind (AlarmService.get_alarm_set_key a) s.alarm_set = none ∧
            a.is_test = false) ∨
          (∃ st, assocFind (AlarmService.get_alarm_set_key a) s.alarm_set = some st ∧
            a.timestamp < st.timestamp))) ∧
        (s.is_alarm_paused = true ∨ a.is_confirmed = true ∨
          ∃ h, assocFind a.house_code s.house_set = some h ∧
            h.is_empty_mode = true ∧ h.enabled = false))) ∧
    (s.get_alarm_status a = AlarmStatus.Playable ↔
      (¬(((assocFind (AlarmService.get_alarm_set_key a) s.alarm_set = none ∧
            a.is_test = false) ∨
          (∃ st, assocFind (AlarmService.get_alarm_set_key a) s.alarm_set = some st ∧
            a.timestamp < st.timestamp))) ∧
        ¬(s.is_alarm_paused = true ∨ a.is_confirmed = true ∨
          ∃ h, assocFind a.house_code s.house_set = some h ∧
            h.is_empty_mode = true ∧ h.enabled = false))) := by
  obtain ⟨hp1, hp2, hp3⟩ := pausedCheck_cases s a
  cases hst : assocFind (AlarmService.get_alarm_set_key a) s.alarm_set with
  | none =>
      cases hit : a.is_test with
      | false => simp [AlarmService.get_alarm_status, hst, hit]
      | true =>
          simp only [AlarmService.get_alarm_status, hst, hit, Option.isNone_none,
            Bool.not_true, Bool.and_false, Bool.false_eq_true, if_false]
          simp only [hst] at *
          constructor
          · simp [hp3]
          · constructor
            · rw [hp1]
              simp
            · rw [hp2]
              simp
  | some st =>
      by_cases hts : a.timestamp < st.timestamp
      · simp [AlarmService.get_alarm_status, hst, hts]
      · simp only [AlarmService.get_alarm_status, hst, Option.isNone_some,
          Bool.false_and, Bool.false_eq_true, if_false, decide_eq_true_eq,
          if_neg hts]
        constructor
        · simp [hp3, hts]
        · constructor
          · rw [hp1]
            simp [hts]
          · rw [hp2]
            simp [hts]

/-- C5: for every act (non-test) alarm with a stamped received time, the
real-time gate calls set_alarm and keeps its state update; when set_alarm
returns false the alarm is dropped silently; when it returns true the
gate emits after suspending until received_time plus play_delay whenever
that instant is still in the future, and emits at once without sleeping
otherwise. -/
theorem c5_gate_process_characterization (s : AlarmService) (a : Alarm)
    (now rt : Timestamp) (htest : a.is_test = false)
    (hrt : a.received_time = some rt) :
    (RealTime.process s a now).1 = (s.set_alarm a).1 ∧
    ((s.set_alarm a).2 = false →
      (RealTime.process s a now).2 = GateAction.Dropped) ∧
    ((s.set_alarm a).2 = true → now < rt + s.get_play_delay →
      (RealTime.process s a now).2 =
        GateAction.SleepThenEmit (rt + s.get_play_delay)) ∧
    ((s.set_alarm a).2 = true → rt + s.get_play_delay ≤ now →
      (RealTime.process s a now).2 = GateAction.EmitNow) := by
  have hpd : (s.set_alarm a).1.get_play_delay = s.get_play_delay := by
    simp [AlarmService.get_play_delay, set_alarm_preserves_play_delay]
  unfold RealTime.process
  simp only [htest, Bool.false_eq_true, if_false, hrt, Option.getD_some, hpd]
  cases hb : (s.set_alarm a).2 with
  | false => simp
  | true =>
      simp only [Bool.not_true, Bool.false_eq_true, if_false, Bool.true_eq_false,
        false_implies, true_implies, true_and]
      by_cases hlt : now < rt + s.get_play_delay
      · simp [hlt, if_pos hlt]
      · simp [hlt, if_neg hlt]

/-- C5 witness: a concrete act alarm received at time 95 with play delay
10 against an empty ongoing set is accepted by set_alarm and, the current
time 100 being before 105, the gate suspends until 105 and then emits. -/
theorem c5_gate_process_witness :
    (RealTime.process ({ play_delay_secs := 10 } : AlarmService)
        ({ house_code := "H1", target_name := "T", timestamp := 90,
           received_time := some 95 } : Alarm) 100).2 =
      GateAction.SleepThenEmit 105 := by
  have h := c5_gate_process_characterization
    ({ play_delay_secs := 10 } : AlarmService)
    ({ house_code := "H1", target_name := "T", timestamp := 90,
       received_time := some 95 } : Alarm) 100 95 rfl rfl
  have hb : ((({ play_delay_secs := 10 } : AlarmService)).set_alarm
      ({ house_code := "H1", target_name := "T", timestamp := 90,
         received_time := some 95 } : Alarm)).2 = true := by decide
  have := h.2.2.1 hb (by decide)
  simpa using this

/-- C10: the alarm enqueued by the act-alarm handler takes its house code
from the first slash-separated topic segment and its received time from
the handler wall clock, and is independent of any house-code, received
time, confirmation or is_new data carried by the JSON payload: two
payloads that agree on every field the deserializer reads produce the
same enqueued alarm, whatever those four fields hold. -/
theorem c10_act_alarm_handler_noninterference (topic : String) (now : Timestamp)
    (p1 p2 : AlarmPayload)
    (h1 : p1.tenant_id = p2.tenant_id) (h2 : p1.farm_id = p2.farm_id)
    (h3 : p1.target_name = p2.target_name) (h4 : p1.alarm_item = p2.alarm_item)
    (h5 : p1.content = p2.content) (h6 : p1.timestamp = p2.timestamp)
    (h7 : p1.alarm_type = p2.alarm_type) (h8 : p1.is_test = p2.is_test)
    (h9 : p1.is_alarm = p2.is_alarm) (h10 : p1.day_age = p2.day_age)
    (h11 : p1.test_plan_time = p2.test_plan_time)
    (h12 : p1.test_time = p2.test_time) :
    ActAlarmHandler.proc topic p1 now = ActAlarmHandler.proc topic p2 now ∧
    (ActAlarmHandler.proc topic p1 now).house_code =
      (splitField topic '/').headD "" ∧
    (ActAlarmHandler.proc topic p1 now).received_time = some now := by
  have hdes : deserializeAlarm p1 = deserializeAlarm p2 := by
    simp [deserializeAlarm, h1, h2, h3, h4, h5, h6, h7, h8, h9, h10, h11, h12]
  unfold ActAlarmHandler.proc
  rw [hdes]
  cases hh : (splitField topic '/').head? with
  | none => simp [hh, List.headD_eq_head?_getD, deserializeAlarm]
  | some seg => simp [hh, List.headD_eq_head?_getD]

/-- C10 witness: two concrete payloads differing only in the house-code,
received-time, confirmation and is_new payload fields yield the same
enqueued alarm, whose house code is the first topic segment h42 and whose
received time is the handler clock value 5. -/
theorem c10_act_alarm_handler_witness :
    ActAlarmHandler.proc "h42/x/alarm"
        ({ house_code := some "evil", received_time := some 999,
           is_confirmed := some true, is_new := some true,
           target_name := "T", alarm_item := "I", content := "c OK",
           timestamp := 7, alarm_type := "x" } : AlarmPayload) 5 =
      ActAlarmHandler.proc "h42/x/alarm"
        ({ target_name := "T", alarm_item := "I", content := "c OK",
           timestamp := 7, alarm_type := "x" } : AlarmPayload) 5 ∧
    (ActAlarmHandler.proc "h42/x/alarm"
        ({ house_code := some "evil", received_time := some 999,
           is_confirmed := some true, is_new := some true,
           target_name := "T", alarm_item := "I", content := "c OK",
           timestamp := 7, alarm_type := "x" } : AlarmPayload) 5).house_code =
      "h42" ∧
    (ActAlarmHandler.proc "h42/x/alarm"
        ({ house_code := some "evil", received_time := some 999,
           is_confirmed := some true, is_new := some true,
           target_name := "T", alarm_item := "I", content := "c OK",
           timestamp := 7, alarm_type := "x" } : AlarmPayload) 5).received_time =
      some 5 := by
  have h := c10_act_alarm_handler_noninterference "h42/x/alarm" 5
    ({ house_code := some "evil", received_time := some 999,
       is_confirmed := some true, is_new := some true,
       target_name := "T", alarm_item := "I", content := "c OK",
       timestamp := 7, alarm_type := "x" } : AlarmPayload)
    ({ target_name := "T", alarm_item := "I", content := "c OK",
       timestamp := 7, alarm_type := "x" } : AlarmPayload)
    rfl rfl rfl rfl rfl rfl rfl rfl rfl rfl rfl rfl
  refine ⟨h.1, ?_, h.2.2⟩
  rw [h.2.1]
  decide

/-- C7: get_alarm_content fails exactly when the house is unknown or the
content has no final space-separated piece; on success it renders the
bracketed house name, the alarm item and the status piece, translating
item and status through the selected localization table, falling back to
the original text on a missing key, and leaving them untouched when no
language is set, the language equals the default, or the language has no
localization table. -/
theorem c7_get_alarm_content_characterization (s : AlarmService) (a : Alarm) :
    ((∃ e, s.get_alarm_content a = Except.error e) ↔
      (assocFind a.house_code s.house_set = none ∨ statusToken a.content = none)) ∧
    (∀ house st, assocFind a.house_code s.house_set = some house →
      statusToken a.content = some st →
      ((s.language = none →
          s.get_alarm_content a =
            Except.ok ("[" ++ house.name ++ "] " ++ a.alarm_item ++ " " ++ st)) ∧
       (s.language = some s.default_language →
          s.get_alarm_content a =
            Except.ok ("[" ++ house.name ++ "] " ++ a.alarm_item ++ " " ++ st)) ∧
       (∀ ln, s.language = some ln → ln ≠ s.default_language →
          assocFind ln s.localization_set = none →
          s.get_alarm_content a =
            Except.ok ("[" ++ house.name ++ "] " ++ a.alarm_item ++ " " ++ st)) ∧
       (∀ ln loc, s.language = some ln → ln ≠ s.default_language →
          assocFind ln s.localization_set = some loc →
          s.get_alarm_content a =
            Except.ok ("[" ++ house.name ++ "] " ++
              ((assocFind a.alarm_item loc.texts).getD a.alarm_item) ++ " " ++
              (if st = "" then st
               else (assocFind st loc.texts).getD st))))) := by
  constructor
  · cases hh : assocFind a.house_code s.house_set with
    | none => simp [AlarmService.get_alarm_content, hh]
    | some house =>
        cases hst : statusToken a.content with
        | none => simp [AlarmService.get_alarm_content, hh, hst]
        | some st =>
            simp only [AlarmService.get_alarm_content, hh, hst]
            cases hlang : s.language with
            | none => simp
            | some ln =>
                by_cases hd : ln = s.default_language
                · simp [hd]
                · cases hloc : assocFind ln s.localization_set with
                  | none => simp [hd, hloc]
                  | some loc =>
                      by_cases hse : st = "" <;>
                        cases hfi : assocFind a.alarm_item loc.texts <;>
                          cases hfs : assocFind st loc.texts <;>
                            simp [hd, hloc, hse, hfi, hfs]
  · intro house st hsome hstok
    have hctx : s.get_alarm_content a =
        (match s.language with
         | some ln =>
           if ln = s.default_language then
             Except.ok ("[" ++ house.name ++ "] " ++ a.alarm_item ++ " " ++ st)
           else
             match assocFind ln s.localization_set with
             | some loc =>
                 Except.ok ("[" ++ house.name ++ "] " ++
                   ((assocFind a.alarm_item loc.texts).getD a.alarm_item) ++ " " ++
                   (if st = "" then st
                    else (assocFind st loc.texts).getD st))
             | none =>
                 Except.ok ("[" ++ house.name ++ "] " ++ a.alarm_item ++ " " ++ st)
         | none =>
             Except.ok ("[" ++ house.name ++ "] " ++ a.alarm_item ++ " " ++ st)) := by
      simp only [AlarmService.get_alarm_content, hsome, hstok]
      cases s.language with
      | none => simp
      | some ln =>
          by_cases hd : ln = s.default_language
          · simp [hd]
          · cases hloc : assocFind ln s.localization_set with
            | none => simp [hd, hloc]
            | some loc =>
                by_cases hse : st = "" <;>
                  cases hfi : assocFind a.alarm_item loc.texts <;>
                    cases hfs : assocFind st loc.texts <;>
                      simp [hd, hloc, hse, hfi, hfs]
    refine ⟨?_, ?_, ?_, ?_⟩
    · intro hlang
      rw [hctx, hlang]
    · intro hlang
      rw [hctx, hlang]
      simp
    · intro ln hlang hne hloc
      rw [hctx, hlang]
      simp [hne, hloc]
    · intro ln loc hlang hne hloc
      rw [hctx, hlang]
      simp [hne, hloc]

/-- C7 witness: a house named 9200, an alarm with item T1 and content
ending in STATUS, with no language set (so the default rendering is
used), renders to the bracketed form, and the same service renders no
error for that alarm. -/
theorem c7_get_alarm_content_witness :
    (({ house_set := [("h77", ⟨"9200", "h77", true, false⟩)] } :
        AlarmService)).get_alarm_content
      ({ house_code := "h77", target_name := "T", alarm_item := "T1",
         content := "c STATUS" } : Alarm) =
      Except.ok "[9200] T1 STATUS" := by
  have h := (c7_get_alarm_content_characterization
    ({ house_set := [("h77", ⟨"9200", "h77", true, false⟩)] } : AlarmService)
    ({ house_code := "h77", target_name := "T", alarm_item := "T1",
       content := "c STATUS" } : Alarm)).2
    ⟨"9200", "h77", true, false⟩ "STATUS" (by decide) (by decide)
  have := h.1 rfl
  simpa using this

/-- C1 counterexample: with a stored raise of timestamp 5 under the key
H1_T, a raise with the same key, strictly newer timestamp 10 and is_new
left at its deserialized default false is claimed to become the new
ongoing alarm with set_alarm returning true; the code returns false and
leaves the stored entry in place unchanged. -/
theorem c1_set_alarm_counterexample :
    ({ house_code := "H1", target_name := "T", timestamp := 10 } : Alarm).is_alarm
      = true ∧
    ({ house_code := "H1", target_name := "T", timestamp := 5 } : Alarm).timestamp <
      ({ house_code := "H1", target_name := "T", timestamp := 10 } : Alarm).timestamp ∧
    (({ alarm_set := [("H1_T",
          { house_code := "H1", target_name := "T", timestamp := 5 })] } :
        AlarmService).set_alarm
        ({ house_code := "H1", target_name := "T", timestamp := 10 } : Alarm)).2
      = false ∧
    (({ alarm_set := [("H1_T",
          { house_code := "H1", target_name := "T", timestamp := 5 })] } :
        AlarmService).set_alarm
        ({ house_code := "H1", target_name := "T", timestamp := 10 } : Alarm)).1
      = ({ alarm_set := [("H1_T",
          { house_code := "H1", target_name := "T", timestamp := 5 })] } :
        AlarmService) := by
  refine ⟨rfl, by decide, by decide, by decide⟩

/-- C1 amended: set_alarm(a) returns true iff the key of a is absent and
a is a raise (a is then inserted), or an entry is stored whose timestamp
is not newer than that of a, a is not a clear with strictly newer
timestamp, and the is_new flag of a is set; a stored entry is never
replaced: a clear with strictly greater timestamp removes it (timestamp
equality does not remove), an alarm with strictly older timestamp is
rejected with the set unchanged, any other alarm against a stored entry
leaves the service unchanged, and a clear with no stored entry is
buffered in the unmapped-cancel set; all of these return false. -/
theorem c1_set_alarm_characterization (s : AlarmService) (a : Alarm)
    (hnd : (s.alarm_set.map Prod.fst).Nodup) :
    ((s.set_alarm a).2 = true ↔
      ((assocFind (AlarmService.get_alarm_set_key a) s.alarm_set = none ∧
          a.is_alarm = true) ∨
        (∃ last, assocFind (AlarmService.get_alarm_set_key a) s.alarm_set = some last ∧
          last.timestamp ≤ a.timestamp ∧
          ¬(a.is_alarm = false ∧ last.timestamp < a.timestamp) ∧
          a.is_new = true))) ∧
    (∀ last, assocFind (AlarmService.get_alarm_set_key a) s.alarm_set = some last →
      a.timestamp < last.timestamp → s.set_alarm a = (s, false)) ∧
    (∀ last, assocFind (AlarmService.get_alarm_set_key a) s.alarm_set = some last →
      a.is_alarm = false → last.timestamp < a.timestamp →
      assocFind (AlarmService.get_alarm_set_key a) (s.set_alarm a).1.alarm_set = none ∧
      (s.set_alarm a).2 = false) ∧
    (∀ last, assocFind (AlarmService.get_alarm_set_key a) s.alarm_set = some last →
      last.timestamp ≤ a.timestamp →
      ¬(a.is_alarm = false ∧ last.timestamp < a.timestamp) →
      (s.set_alarm a).1 = s) ∧
    (assocFind (AlarmService.get_alarm_set_key a) s.alarm_set = none →
      a.is_alarm = true →
      assocFind (AlarmService.get_alarm_set_key a) (s.set_alarm a).1.alarm_set = some a ∧
      (s.set_alarm a).2 = true) ∧
    (assocFind (AlarmService.get_alarm_set_key a) s.alarm_set = none →
      a.is_alarm = false →
      (s.set_alarm a).1.alarm_set = s.alarm_set ∧
      assocFind (AlarmService.get_alarm_set_key a)
        (s.set_alarm a).1.unmapped_cancel_set = some a ∧
      (s.set_alarm a).2 = false) := by
  cases hfind : assocFind (AlarmService.get_alarm_set_key a) s.alarm_set with
  | none =>
      cases hia : a.is_alarm with
      | true =>
          have hres : s.set_alarm a =
              ({ s with alarm_set :=
                  assocInsert (AlarmService.get_alarm_set_key a) a s.alarm_set },
                true) := by
            simp [AlarmService.set_alarm, hfind, hia]
          refine ⟨?_, ?_, ?_, ?_, ?_, ?_⟩
          · rw [hres]
            simp
          · intro last hl2 _
            cases hl2
          · intro last hl2 _ _
            cases hl2
          · intro last hl2 _ _
            cases hl2
          · intro _ _
            rw [hres]
            exact ⟨assocFind_assocInsert_self _ _ _, rfl⟩
          · intro _ hf
            cases hf
      | false =>
          have hres : s.set_alarm a =
              ({ s with unmapped_cancel_set :=
                  assocInsert (AlarmService.get_alarm_set_key a) a s.unmapped_cancel_set },
                false) := by
            simp [AlarmService.set_alarm, hfind, hia]
          refine ⟨?_, ?_, ?_, ?_, ?_, ?_⟩
          · rw [hres]
            simp
          · intro last hl2 _
            cases hl2
          · intro last hl2 _ _
            cases hl2
          · intro last hl2 _ _
            cases hl2
          · intro _ hf
            cases hf
          · intro _ _
            rw [hres]
            exact ⟨rfl, assocFind_assocInsert_self _ _ _, rfl⟩
  | some last =>
      by_cases h1 : a.timestamp < last.timestamp
      · have hres : s.set_alarm a = (s, false) := by
          simp [AlarmService.set_alarm, hfind, h1]
        refine ⟨?_, ?_, ?_, ?_, ?_, ?_⟩
        · rw [hres]
          simp only [Bool.false_eq_true, false_iff]
          rintro (⟨hc, _⟩ | ⟨last2, hl2, hle, _, _⟩)
          · cases hc
          · cases hl2
            exact absurd h1 (not_lt.mpr hle)
        · intro last2 hl2 _
          rw [hres]
        · intro last2 hl2 _ hlt
          cases hl2
          exact absurd h1 (lt_asymm hlt)
        · intro last2 hl2 hle _
          cases hl2
          exact absurd h1 (not_lt.mpr hle)
        · intro hc _
          cases hc
        · intro hc _
          cases hc
      · by_cases h2 : a.is_alarm = false ∧ last.timestamp < a.timestamp
        · have hcond : (!a.is_alarm && decide (last.timestamp < a.timestamp)) = true := by
            simp [h2.1, h2.2]
          have hres : s.set_alarm a =
              ({ s with alarm_set :=
                  assocRemove (AlarmService.get_alarm_set_key a) s.alarm_set },
                false) := by
            simp [AlarmService.set_alarm, hfind, h1, hcond]
          refine ⟨?_, ?_, ?_, ?_, ?_, ?_⟩
          · rw [hres]
            simp only [Bool.false_eq_true, false_iff]
            rintro (⟨hc, _⟩ | ⟨last2, hl2, _, hnot, _⟩)
            · cases hc
            · cases hl2
              exact hnot h2
          · intro last2 hl2 hlt
            cases hl2
            exact absurd hlt h1
          · intro last2 hl2 _ _
            rw [hres]
            exact ⟨assocFind_assocRemove_self _ _ hnd, rfl⟩
          · intro last2 hl2 _ hnot
            cases hl2
            exact absurd h2 hnot
          · intro hc _
            cases hc
          · intro hc _
            cases hc
        · have hcond : (!a.is_alarm && decide (last.timestamp < a.timestamp)) = false := by
            cases hia : a.is_alarm with
            | true => simp [hia]
            | false =>
                simp only [hia, Bool.not_false, Bool.true_and, decide_eq_false_iff_not]
                intro hlt
                exact h2 ⟨hia, hlt⟩
          have hres : s.set_alarm a = (s, a.is_new) := by
            simp [AlarmService.set_alarm, hfind, h1, hcond]
          refine ⟨?_, ?_, ?_, ?_, ?_, ?_⟩
          · rw [hres]
            constructor
            · intro hn
              exact Or.inr ⟨last, rfl, le_of_not_lt h1, h2, hn⟩
            · rintro (⟨hc, _⟩ | ⟨last2, hl2, _, _, hn⟩)
              · cases hc
              · exact hn
          · intro last2 hl2 hlt
            cases hl2
            exact absurd hlt h1
          · intro last2 hl2 hfa hlt
            cases hl2
            exact absurd ⟨hfa, hlt⟩ h2
          · intro last2 hl2 _ _
            rw [hres]
          · intro hc _
            cases hc
          · intro hc _
            cases hc

/-- C1 witness: a raise against an empty ongoing set is inserted under
its key and set_alarm returns true for it. -/
theorem c1_set_alarm_witness :
    (({} : AlarmService).set_alarm
      ({ house_code := "H1", target_name := "T", timestamp := 5 } : Alarm)).2 = true ∧
    assocFind "H1_T"
      (({} : AlarmService).set_alarm
        ({ house_code := "H1", target_name := "T", timestamp := 5 } : Alarm)).1.alarm_set
      = some ({ house_code := "H1", target_name := "T", timestamp := 5 } : Alarm) := by
  have h := c1_set_alarm_characterization ({} : AlarmService)
    ({ house_code := "H1", target_name := "T", timestamp := 5 } : Alarm) (by decide)
  have h5 := h.2.2.2.2.1 rfl rfl
  exact ⟨h5.2, h5.1⟩

end AlarmPlayer
